import Mathlib

/-!
# Provider registration and configuration of terraform-provider-sentry

A shallow embedding of `sentry/provider.go`: the provider schema built by
`NewProvider` (two settings, nine managed resources, four data sources) and
the `configure` callback that turns the settings into the client
configuration and constructs the client.

The parts of the Terraform plugin SDK that the file calls
(`schema.EnvDefaultFunc`, `schema.MultiEnvDefaultFunc`, `Schema.DefaultValue`,
`ValueType.Zero`, `ResourceData.Get`, `diag.FromErr`) are library code outside
the repository; each is embedded by its documented behaviour in a definition of
the same name, marked as modelled.  `Provider.UserAgent` and
`sentryclient.Config.Client` are taken as parameters of `configure`.  The
`init` function only selects the markup kind of the descriptions and is left
out.
-/

namespace Sentry

/-! ## Dynamic values and the process environment -/

/-- Go `interface{}` values as far as provider settings can hold them: the nil
interface, or a boolean, integer or string. -/
inductive Value where
  | nil
  | bool (b : Bool)
  | int (i : Int)
  | str (s : String)
  deriving DecidableEq, Repr

/-- The process environment as `os.Getenv` shows it: the value of a variable,
the empty string when the variable is unset. -/
abbrev Env := String → String

/-- The type assertion `v.(string)`; `none` stands for the run-time panic of a
failed assertion. -/
def Value.assertString : Value → Option String
  | .str s => some s
  | _ => none

/-- The primitive setting kinds of `helper/schema` (`schema.ValueType`). -/
inductive ValueType where
  | TypeBool
  | TypeInt
  | TypeString
  deriving DecidableEq, Repr

/-- Modelled from the spec: `ValueType.Zero` of the Terraform plugin SDK, which is
not under src/ and on which the spec is silent; the zero value the library
documents for each kind. -/
def ValueType.Zero : ValueType → Value
  | .TypeBool => .bool false
  | .TypeInt => .int 0
  | .TypeString => .str ""

/-! ## Environment default functions -/

/-- Modelled from the spec: `schema.MultiEnvDefaultFunc` of the Terraform plugin
SDK, which is not under src/ ("named environment fallbacks", "alternate variable
names").  The variables are tried in list order, the first non-empty value is
returned, and `dv` when all are empty. -/
def MultiEnvDefaultFunc (ks : List String) (dv : Value) (env : Env) : Value :=
  match ks with
  | [] => dv
  | k :: rest => if env k ≠ "" then .str (env k) else MultiEnvDefaultFunc rest dv env

/-- Modelled from the spec: `schema.EnvDefaultFunc` of the Terraform plugin SDK,
which is not under src/ ("one variable name with a default").  The value of the
variable when non-empty, `dv` otherwise. -/
def EnvDefaultFunc (k : String) (dv : Value) (env : Env) : Value :=
  if env k ≠ "" then .str (env k) else dv

/-! ## Schema, resources, provider -/

/-- The fields of `schema.Schema` that `NewProvider` sets (`Type_` is the field
`Type`, a reserved word here), with the Go zero value as default for the ones a
literal leaves out. -/
structure Schema where
  Description : String := ""
  Type_ : ValueType
  Optional : Bool := false
  Required : Bool := false
  Default : Value := .nil
  DefaultFunc : Option (Env → Value) := none
  Sensitive : Bool := false

/-- Modelled from the spec: `Schema.DefaultValue` of the Terraform plugin SDK,
which is not under src/ and on which the spec is silent; as the library
documents it, the static default when there is one, else the result of the
default function, else nil. -/
def Schema.DefaultValue (s : Schema) (env : Env) : Value :=
  if s.Default ≠ .nil then s.Default
  else match s.DefaultFunc with
    | some f => f env
    | none => .nil

/-- The resource and data-source definitions the provider registers.  Each is
built by a function of the repository outside `provider.go`; only which function
built it is recorded. -/
inductive Resource where
  | resourceSentryDashboard
  | resourceSentryMetricAlert
  | resourceSentryOrganizationCodeMapping
  | resourceSentryOrganizationMember
  | resourceSentryOrganizationRepositoryGithub
  | resourceSentryOrganization
  | resourceSentryPlugin
  | resourceSentryProject
  | resourceSentryTeam
  | dataSourceSentryDashboard
  | dataSourceSentryMetricAlert
  | dataSourceSentryOrganization
  | dataSourceSentryTeam
  deriving DecidableEq, Repr

/-- The fields of `schema.Provider` that `NewProvider` fills.  A Go map literal
is kept as the list of its entries in source order.  The `ConfigureContextFunc`
field is the definition `ConfigureContextFunc` below. -/
structure Provider where
  Schema : List (String × Schema)
  ResourcesMap : List (String × Resource)
  DataSourcesMap : List (String × Resource)

/-- `NewProvider(version)` returns a factory; calling the factory builds the
provider. -/
def NewProvider (_version : String) : Unit → Provider := fun _ =>
  { Schema := [
      ("token",
        { Description := "The authentication token used to connect to Sentry. The value can be sourced from the `SENTRY_AUTH_TOKEN` environment variable."
          Type_ := .TypeString
          Optional := true
          DefaultFunc := some (MultiEnvDefaultFunc ["SENTRY_AUTH_TOKEN", "SENTRY_TOKEN"] .nil)
          Sensitive := true }),
      ("base_url",
        { Description := "The target Sentry Base API URL follows the format `https://[hostname]/api/`, and this URL must end with the `/api/` path, including the trailing slash. The default value is `https://sentry.io/api/`, which proxies most requests to the appropriate region based on your organization. To avoid additional round trips, it is preferable to set the region URL explicitly. Use `https://us.sentry.io/api/` for the US region and `https://de.sentry.io/api/` for the EU region. This value is required for Sentry On-Premise deployments and can be sourced from the `SENTRY_BASE_URL` environment variable."
          Type_ := .TypeString
          Optional := true
          DefaultFunc := some (EnvDefaultFunc "SENTRY_BASE_URL" (.str "https://sentry.io/api/")) })
    ]
    ResourcesMap := [
      ("sentry_dashboard", .resourceSentryDashboard),
      ("sentry_metric_alert", .resourceSentryMetricAlert),
      ("sentry_organization_code_mapping", .resourceSentryOrganizationCodeMapping),
      ("sentry_organization_member", .resourceSentryOrganizationMember),
      ("sentry_organization_repository_github", .resourceSentryOrganizationRepositoryGithub),
      ("sentry_organization", .resourceSentryOrganization),
      ("sentry_plugin", .resourceSentryPlugin),
      ("sentry_project", .resourceSentryProject),
      ("sentry_team", .resourceSentryTeam)
    ]
    DataSourcesMap := [
      ("sentry_dashboard", .dataSourceSentryDashboard),
      ("sentry_metric_alert", .dataSourceSentryMetricAlert),
      ("sentry_organization", .dataSourceSentryOrganization),
      ("sentry_team", .dataSourceSentryTeam)
    ] }

/-- The key set of a map literal, in source order. -/
def keys {β : Type} (m : List (String × β)) : List String := m.map Prod.fst

/-- Whether a registered name begins with `sentry_`. -/
def startsWithSentry (name : String) : Bool := "sentry_".toList.isPrefixOf name.toList

/-! ## Configuration data handed to `configure` -/

/-- The provider block of a Terraform configuration: each of the two settings is
either given explicitly or left out.  Both are declared `TypeString`, and the
SDK decodes a configured value to the declared type before `configure` runs, so
an explicit value is a string. -/
structure ProviderConfig where
  token : Option String
  base_url : Option String
  deriving DecidableEq, Repr

/-- The explicitly configured value under an attribute name. -/
def ProviderConfig.raw (c : ProviderConfig) (key : String) : Option Value :=
  if key = "token" then c.token.map Value.str
  else if key = "base_url" then c.base_url.map Value.str
  else none

/-- The `schema.ResourceData` the SDK hands to the configure callback: the
schema it was built for and the explicitly configured values. -/
structure ResourceData where
  schema : List (String × Schema)
  config : String → Option Value

/-- The `ResourceData` built from provider `p` and the provider block `c`. -/
def resourceData (p : Provider) (c : ProviderConfig) : ResourceData :=
  { schema := p.Schema, config := c.raw }

/-- The constant `hcl2shim.UnknownVariableValue` of the Terraform plugin SDK: the
string that stands for a value not yet known.  A configured string equal to it
is taken for an unknown value. -/
def UnknownVariableValue : String := "74D93920-ED26-11E3-AC10-0800200C9A66"

/-- Modelled from the spec: `ResourceData.Get` of the Terraform plugin SDK, which
is not under src/ ("sourced from either explicit input or named environment
fallbacks").  Nil for a key outside the schema; else, for a configured value,
the zero value of the declared kind when the value is the unknown-value marker
and the configured value itself otherwise; else the default value when it is
not nil; else the zero value of the declared kind. -/
def ResourceData.Get (d : ResourceData) (env : Env) (key : String) : Value :=
  match d.schema.lookup key with
  | none => .nil
  | some s =>
    match d.config key with
    | some v => if v = Value.str UnknownVariableValue then s.Type_.Zero else v
    | none =>
      match s.DefaultValue env with
      | .nil => s.Type_.Zero
      | v => v

/-! ## Diagnostics -/

/-- `diag.Severity`. -/
inductive Severity where
  | Error
  | Warning
  deriving DecidableEq, Repr

/-- `diag.Diagnostic`. -/
structure Diagnostic where
  Severity : Severity
  Summary : String
  Detail : String := ""
  deriving DecidableEq, Repr

/-- `diag.Diagnostics`; the nil slice is the empty list. -/
abbrev Diagnostics := List Diagnostic

/-- A non-nil Go `error`, by its message. -/
structure GoError where
  message : String
  deriving DecidableEq, Repr

/-- Modelled from the spec: `diag.FromErr` of the Terraform plugin SDK, which is
not under src/ (failures reach the caller "with enough context ... to render a
user-facing diagnostic").  One error diagnostic whose summary is the message of
the error; nothing for a nil error. -/
def FromErr (err : Option GoError) : Diagnostics :=
  match err with
  | none => []
  | some e => [{ Severity := .Error, Summary := e.message }]

/-! ## The configure callback -/

/-- `sentryclient.Config`. -/
structure Config where
  UserAgent : String
  Token : String
  BaseURL : String
  deriving DecidableEq, Repr

/-- The composite literal at the head of `configure`.  `none` is the panic of a
failed type assertion.  `UserAgent` stands for the SDK method
`Provider.UserAgent`. -/
def buildConfig (UserAgent : Provider → String → String → String)
    (version : String) (p : Provider) (env : Env) (d : ResourceData) : Option Config :=
  match (d.Get env "token").assertString, (d.Get env "base_url").assertString with
  | some token, some baseURL =>
    some { UserAgent := UserAgent p "terraform-provider-sentry" version
           Token := token
           BaseURL := baseURL }
  | _, _ => none

/-- The function `configure(version, p)` returns.  `Client` stands for
`sentryclient.Config.Client`, which returns a Go pair of client and error; a
result `none` is a panic, `some (client, diags)` the returned pair. -/
def configure {C : Type} (UserAgent : Provider → String → String → String)
    (Client : Config → Option C × Option GoError)
    (version : String) (p : Provider) (env : Env) (d : ResourceData) :
    Option (Option C × Diagnostics) :=
  match buildConfig UserAgent version p env d with
  | none => none
  | some config =>
    match Client config with
    | (_, some err) => some (none, FromErr (some err))
    | (client, none) => some (client, [])

/-- The `ConfigureContextFunc` of the provider built by `NewProvider version`,
run on the provider block `c` in environment `env`. -/
def ConfigureContextFunc {C : Type} (UserAgent : Provider → String → String → String)
    (Client : Config → Option C × Option GoError)
    (version : String) (env : Env) (c : ProviderConfig) : Option (Option C × Diagnostics) :=
  configure UserAgent Client version (NewProvider version ()) env
    (resourceData (NewProvider version ()) c)

/-! ## Auxiliary notions used in the statements -/

/-- The environment that keeps the variables in `names` and has every other
variable unset. -/
def Env.only (names : List String) (env : Env) : Env :=
  fun k => if k ∈ names then env k else ""

/-- The default value of a provider setting in an environment; `none` when the
provider has no such setting. -/
def settingDefault (p : Provider) (key : String) (env : Env) : Option Value :=
  (p.Schema.lookup key).map (fun s => s.DefaultValue env)

/-- The environment in which the variables in `names` are unset and every other
variable is as in `env`. -/
def Env.unset (names : List String) (env : Env) : Env :=
  fun k => if k ∈ names then "" else env k

/-- The shape of one provider setting: its name, kind and flags. -/
structure SettingShape where
  name : String
  kind : ValueType
  optional : Bool
  required : Bool
  sensitive : Bool
  deriving DecidableEq, Repr

/-- The shape of a provider: the shapes of its settings and the names it
registers. -/
structure ProviderShape where
  settings : List SettingShape
  resources : List String
  dataSources : List String
  deriving DecidableEq, Repr

/-- The shape of a provider. -/
def Provider.shape (p : Provider) : ProviderShape :=
  { settings := p.Schema.map (fun ks =>
      { name := ks.1, kind := ks.2.Type_, optional := ks.2.Optional,
        required := ks.2.Required, sensitive := ks.2.Sensitive })
    resources := keys p.ResourcesMap
    dataSources := keys p.DataSourcesMap }

/-- Whether the schema of `p` accepts the provider block `c` as far as presence
goes: every setting marked `Required` is given explicitly.  (The SDK reports
"Missing required argument" for a required setting without a value; it also
lets a default function supply the value, so this test is the stricter one.) -/
def schemaValid (p : Provider) (c : ProviderConfig) : Bool :=
  p.Schema.all (fun ks => !ks.2.Required || (c.raw ks.1).isSome)

/-- What `configure` does once the configuration `config` is built: the call of
`Client` and the two return statements. -/
def afterClient {C : Type} (Client : Config → Option C × Option GoError)
    (config : Config) : Option C × Diagnostics :=
  match Client config with
  | (_, some err) => (none, FromErr (some err))
  | (client, none) => (client, [])

/-! ## The values read by `configure` -/

/-- The value read for `token`: the explicit string (the empty string when it is
the unknown-value marker), else the first non-empty of the two environment
variables, else the empty string. -/
theorem get_token (version : String) (env : Env) (c : ProviderConfig) :
    (resourceData (NewProvider version ()) c).Get env "token"
      = Value.str (match c.token with
          | some t => if t = UnknownVariableValue then "" else t
          | none =>
            if env "SENTRY_AUTH_TOKEN" ≠ "" then env "SENTRY_AUTH_TOKEN"
            else if env "SENTRY_TOKEN" ≠ "" then env "SENTRY_TOKEN"
            else "") := by
  rcases c with ⟨_ | t, b⟩
  · by_cases h1 : env "SENTRY_AUTH_TOKEN" = ""
    · by_cases h2 : env "SENTRY_TOKEN" = ""
      · simp [resourceData, ResourceData.Get, ProviderConfig.raw, NewProvider, List.lookup,
          Schema.DefaultValue, MultiEnvDefaultFunc, ValueType.Zero, h1, h2]
      · simp [resourceData, ResourceData.Get, ProviderConfig.raw, NewProvider, List.lookup,
          Schema.DefaultValue, MultiEnvDefaultFunc, h1, h2]
    · simp [resourceData, ResourceData.Get, ProviderConfig.raw, NewProvider, List.lookup,
        Schema.DefaultValue, MultiEnvDefaultFunc, h1]
  · by_cases hm : t = UnknownVariableValue
    · simp [resourceData, ResourceData.Get, ProviderConfig.raw, NewProvider, List.lookup,
        ValueType.Zero, hm]
    · simp [resourceData, ResourceData.Get, ProviderConfig.raw, NewProvider, List.lookup, hm]

/-- The value read for `base_url`: the explicit string (the empty string when it
is the unknown-value marker), else SENTRY_BASE_URL when non-empty, else the
public endpoint. -/
theorem get_base_url (version : String) (env : Env) (c : ProviderConfig) :
    (resourceData (NewProvider version ()) c).Get env "base_url"
      = Value.str (match c.base_url with
          | some b => if b = UnknownVariableValue then "" else b
          | none =>
            if env "SENTRY_BASE_URL" ≠ "" then env "SENTRY_BASE_URL"
            else "https://sentry.io/api/") := by
  rcases c with ⟨t, _ | b⟩
  · by_cases h1 : env "SENTRY_BASE_URL" = ""
    · simp [resourceData, ResourceData.Get, ProviderConfig.raw, NewProvider, List.lookup,
        Schema.DefaultValue, EnvDefaultFunc, h1]
    · simp [resourceData, ResourceData.Get, ProviderConfig.raw, NewProvider, List.lookup,
        Schema.DefaultValue, EnvDefaultFunc, h1]
  · by_cases hm : b = UnknownVariableValue
    · simp [resourceData, ResourceData.Get, ProviderConfig.raw, NewProvider, List.lookup,
        ValueType.Zero, hm]
    · simp [resourceData, ResourceData.Get, ProviderConfig.raw, NewProvider, List.lookup, hm]

/-- The configuration `configure` builds for the provider of `NewProvider`. -/
theorem buildConfig_eq (UserAgent : Provider → String → String → String)
    (version : String) (env : Env) (c : ProviderConfig) :
    buildConfig UserAgent version (NewProvider version ()) env
        (resourceData (NewProvider version ()) c)
      = some
          { UserAgent := UserAgent (NewProvider version ()) "terraform-provider-sentry" version
            Token := (match c.token with
              | some t => if t = UnknownVariableValue then "" else t
              | none =>
                if env "SENTRY_AUTH_TOKEN" ≠ "" then env "SENTRY_AUTH_TOKEN"
                else if env "SENTRY_TOKEN" ≠ "" then env "SENTRY_TOKEN"
                else "")
            BaseURL := (match c.base_url with
              | some b => if b = UnknownVariableValue then "" else b
              | none =>
                if env "SENTRY_BASE_URL" ≠ "" then env "SENTRY_BASE_URL"
                else "https://sentry.io/api/") } := by
  unfold buildConfig
  rw [get_token, get_base_url]
  rfl

/-- The callback is the client call applied to the configuration built. -/
theorem configure_eq {C : Type} (UserAgent : Provider → String → String → String)
    (Client : Config → Option C × Option GoError)
    (version : String) (p : Provider) (env : Env) (d : ResourceData) (config : Config)
    (h : buildConfig UserAgent version p env d = some config) :
    configure UserAgent Client version p env d = some (afterClient Client config) := by
  unfold configure afterClient
  rw [h]
  rcases hc : Client config with ⟨client, _ | err⟩ <;> simp only [hc]

/-! ## Settings: defaults and explicit values -/

/-- C1: with no explicit token, the token default is SENTRY_AUTH_TOKEN when that
is non-empty, else SENTRY_TOKEN when that is non-empty, else nil; it is the same
in the environment that keeps only these two variables; and the value `configure`
reads for an absent token is that default, the empty string standing in for
nil. -/
theorem token_default_from_env (version : String) (env : Env) :
    settingDefault (NewProvider version ()) "token" env
        = some (if env "SENTRY_AUTH_TOKEN" ≠ "" then Value.str (env "SENTRY_AUTH_TOKEN")
                else if env "SENTRY_TOKEN" ≠ "" then Value.str (env "SENTRY_TOKEN")
                else Value.nil)
      ∧ settingDefault (NewProvider version ()) "token"
            (Env.only ["SENTRY_AUTH_TOKEN", "SENTRY_TOKEN"] env)
          = settingDefault (NewProvider version ()) "token" env
      ∧ ∀ b : Option String,
          (resourceData (NewProvider version ()) ⟨none, b⟩).Get env "token"
            = (if env "SENTRY_AUTH_TOKEN" ≠ "" then Value.str (env "SENTRY_AUTH_TOKEN")
               else if env "SENTRY_TOKEN" ≠ "" then Value.str (env "SENTRY_TOKEN")
               else Value.str "") := by
  refine ⟨?_, ?_, ?_⟩
  · simp [settingDefault, NewProvider, List.lookup, Schema.DefaultValue, MultiEnvDefaultFunc]
  · simp [settingDefault, NewProvider, List.lookup, Schema.DefaultValue, MultiEnvDefaultFunc,
      Env.only]
  · intro b
    by_cases h1 : env "SENTRY_AUTH_TOKEN" = ""
    · by_cases h2 : env "SENTRY_TOKEN" = ""
      · simp [resourceData, ResourceData.Get, ProviderConfig.raw, NewProvider, List.lookup,
          Schema.DefaultValue, MultiEnvDefaultFunc, ValueType.Zero, h1, h2]
      · simp [resourceData, ResourceData.Get, ProviderConfig.raw, NewProvider, List.lookup,
          Schema.DefaultValue, MultiEnvDefaultFunc, h1, h2]
    · simp [resourceData, ResourceData.Get, ProviderConfig.raw, NewProvider, List.lookup,
        Schema.DefaultValue, MultiEnvDefaultFunc, h1]

/-- C2: with no explicit base_url, the base_url default is SENTRY_BASE_URL when
that is non-empty and otherwise exactly "https://sentry.io/api/"; it is the same
in the environment that keeps only this variable; and this is the value
`configure` reads for an absent base_url. -/
theorem base_url_default_from_env (version : String) (env : Env) :
    settingDefault (NewProvider version ()) "base_url" env
        = some (if env "SENTRY_BASE_URL" ≠ "" then Value.str (env "SENTRY_BASE_URL")
                else Value.str "https://sentry.io/api/")
      ∧ settingDefault (NewProvider version ()) "base_url" (Env.only ["SENTRY_BASE_URL"] env)
          = settingDefault (NewProvider version ()) "base_url" env
      ∧ ∀ t : Option String,
          (resourceData (NewProvider version ()) ⟨t, none⟩).Get env "base_url"
            = (if env "SENTRY_BASE_URL" ≠ "" then Value.str (env "SENTRY_BASE_URL")
               else Value.str "https://sentry.io/api/") := by
  refine ⟨?_, ?_, ?_⟩
  · simp [settingDefault, NewProvider, List.lookup, Schema.DefaultValue, EnvDefaultFunc]
  · simp [settingDefault, NewProvider, List.lookup, Schema.DefaultValue, EnvDefaultFunc,
      Env.only]
  · intro t
    rw [get_base_url]
    by_cases h1 : env "SENTRY_BASE_URL" = "" <;> simp [h1]

/-- C4: for every provider block and environment, `configure` returns (it does
not panic); the pair it returns has a nil client and a non-empty diagnostic list
exactly when the client constructor reports an error on the configuration built;
in that case the list is the single error diagnostic carrying the message of
that error, and otherwise the pair is the constructed client with no
diagnostics. -/
theorem configure_error_iff {C : Type} (UserAgent : Provider → String → String → String)
    (Client : Config → Option C × Option GoError)
    (version : String) (env : Env) (c : ProviderConfig) :
    ∃ config r,
      buildConfig UserAgent version (NewProvider version ()) env
          (resourceData (NewProvider version ()) c) = some config
      ∧ ConfigureContextFunc UserAgent Client version env c = some r
      ∧ ((r.1 = none ∧ r.2 ≠ []) ↔ (Client config).2 ≠ none)
      ∧ r = (match (Client config).2 with
              | some err => (none, [{ Severity := Severity.Error, Summary := err.message }])
              | none => ((Client config).1, [])) := by
  obtain ⟨config, hcfg⟩ : ∃ config, buildConfig UserAgent version (NewProvider version ()) env
      (resourceData (NewProvider version ()) c) = some config :=
    ⟨_, buildConfig_eq UserAgent version env c⟩
  refine ⟨config, afterClient Client config, hcfg, ?_, ?_, ?_⟩
  · unfold ConfigureContextFunc
    rw [configure_eq UserAgent Client version _ env _ config hcfg]
  · unfold afterClient
    rcases Client config with ⟨client, _ | err⟩ <;> simp [FromErr]
  · unfold afterClient
    rcases Client config with ⟨client, _ | err⟩ <;> simp [FromErr]

/-! ## Registered names -/

/-- C6: each of the seven resource kinds in scope is registered as a managed
resource under its `sentry_` name; the resource map has 9 entries and the
data-source map 4, all under distinct names, 13 in total. -/
theorem registered_kinds (version : String) :
    (∀ name ∈ ["sentry_organization", "sentry_team", "sentry_project", "sentry_dashboard",
          "sentry_metric_alert", "sentry_organization_code_mapping", "sentry_plugin"],
        name ∈ keys (NewProvider version ()).ResourcesMap ∧ startsWithSentry name = true)
      ∧ (NewProvider version ()).ResourcesMap.length = 9
      ∧ (NewProvider version ()).DataSourcesMap.length = 4
      ∧ (NewProvider version ()).ResourcesMap.length
          + (NewProvider version ()).DataSourcesMap.length = 13
      ∧ (keys (NewProvider version ()).ResourcesMap).Nodup
      ∧ (keys (NewProvider version ()).DataSourcesMap).Nodup := by
  have h : NewProvider version () = NewProvider "" () := rfl
  rw [h]
  decide

/-- C9: every data-source name is also a managed-resource name, no name occurs
twice within a map, and every name in both maps starts with `sentry_`. -/
theorem registered_names_invariants (version : String) :
    (∀ name ∈ keys (NewProvider version ()).DataSourcesMap,
        name ∈ keys (NewProvider version ()).ResourcesMap)
      ∧ (keys (NewProvider version ()).ResourcesMap).Nodup
      ∧ (keys (NewProvider version ()).DataSourcesMap).Nodup
      ∧ (∀ name ∈ keys (NewProvider version ()).ResourcesMap, startsWithSentry name = true)
      ∧ (∀ name ∈ keys (NewProvider version ()).DataSourcesMap,
          startsWithSentry name = true) := by
  have h : NewProvider version () = NewProvider "" () := rfl
  rw [h]
  decide

/-! ## Type assertions, flags, and independence of the version -/

/-- C7: for every provider block and environment the value read for each of the
two settings is a string, so neither type assertion fails and `configure`
returns; with the token absent and both SENTRY_AUTH_TOKEN and SENTRY_TOKEN
unset, where the default is nil, the value read is the empty string and the
Token of the configuration is "". -/
theorem assertions_never_fail {C : Type} (UserAgent : Provider → String → String → String)
    (Client : Config → Option C × Option GoError)
    (version : String) (env : Env) (c : ProviderConfig) :
    (∃ t, ((resourceData (NewProvider version ()) c).Get env "token").assertString = some t)
      ∧ (∃ b, ((resourceData (NewProvider version ()) c).Get env "base_url").assertString
            = some b)
      ∧ (∃ r, ConfigureContextFunc UserAgent Client version env c = some r)
      ∧ settingDefault (NewProvider version ()) "token"
            (Env.unset ["SENTRY_AUTH_TOKEN", "SENTRY_TOKEN"] env) = some Value.nil
      ∧ (resourceData (NewProvider version ()) ⟨none, c.base_url⟩).Get
            (Env.unset ["SENTRY_AUTH_TOKEN", "SENTRY_TOKEN"] env) "token" = Value.str ""
      ∧ (buildConfig UserAgent version (NewProvider version ())
            (Env.unset ["SENTRY_AUTH_TOKEN", "SENTRY_TOKEN"] env)
            (resourceData (NewProvider version ()) ⟨none, c.base_url⟩)).map Config.Token
          = some "" := by
  refine ⟨?_, ?_, ?_, ?_, ?_, ?_⟩
  · rw [get_token]
    exact ⟨_, rfl⟩
  · rw [get_base_url]
    exact ⟨_, rfl⟩
  · unfold ConfigureContextFunc
    rw [configure_eq UserAgent Client version _ env _ _ (buildConfig_eq UserAgent version env c)]
    exact ⟨_, rfl⟩
  · simp [settingDefault, NewProvider, List.lookup, Schema.DefaultValue, MultiEnvDefaultFunc,
      Env.unset]
  · rw [get_token]
    simp [Env.unset]
  · rw [buildConfig_eq]
    simp [Env.unset]

/-- C8: both settings are optional and neither is required, the provider block
that sets neither is accepted by the schema, the token is marked sensitive and
base_url is not, so that a setting is sensitive exactly when it is the token. -/
theorem settings_flags (version : String) :
    ((NewProvider version ()).Schema.lookup "token").map
          (fun s => (s.Optional, s.Required, s.Sensitive)) = some (true, false, true)
      ∧ ((NewProvider version ()).Schema.lookup "base_url").map
          (fun s => (s.Optional, s.Required, s.Sensitive)) = some (true, false, false)
      ∧ keys (NewProvider version ()).Schema = ["token", "base_url"]
      ∧ (∀ ks ∈ (NewProvider version ()).Schema, (ks.2.Sensitive = true ↔ ks.1 = "token"))
      ∧ schemaValid (NewProvider version ()) ⟨none, none⟩ = true := by
  refine ⟨?_, ?_, ?_, ?_, ?_⟩
  · simp [NewProvider, List.lookup]
  · simp [NewProvider, List.lookup]
  · simp [NewProvider, keys]
  · simp [NewProvider]
  · simp [schemaValid, NewProvider]

/-- C10: for every two version strings and every two invocations of the
factories the providers built have the same shape (setting names, kinds and
flags, resource names, data-source names), in particular two invocations of one
factory; for every provider block and environment the configurations built under
the two versions have the same Token and the same BaseURL, and the version
enters the configuration only as the argument of the user-agent function. -/
theorem shape_independent_of_version (UserAgent : Provider → String → String → String)
    (v1 v2 : String) (call1 call2 : Unit) (env : Env) (c : ProviderConfig) :
    (NewProvider v1 call1).shape = (NewProvider v2 call2).shape
      ∧ (NewProvider v1 call1).shape = (NewProvider v1 call2).shape
      ∧ (buildConfig UserAgent v1 (NewProvider v1 ()) env
            (resourceData (NewProvider v1 ()) c)).map Config.Token
          = (buildConfig UserAgent v2 (NewProvider v2 ()) env
              (resourceData (NewProvider v2 ()) c)).map Config.Token
      ∧ (buildConfig UserAgent v1 (NewProvider v1 ()) env
            (resourceData (NewProvider v1 ()) c)).map Config.BaseURL
          = (buildConfig UserAgent v2 (NewProvider v2 ()) env
              (resourceData (NewProvider v2 ()) c)).map Config.BaseURL
      ∧ (buildConfig UserAgent v1 (NewProvider v1 ()) env
            (resourceData (NewProvider v1 ()) c)).map Config.UserAgent
          = some (UserAgent (NewProvider v1 ()) "terraform-provider-sentry" v1) := by
  refine ⟨rfl, rfl, ?_, ?_, ?_⟩
  · rw [buildConfig_eq, buildConfig_eq]
    rfl
  · rw [buildConfig_eq, buildConfig_eq]
    rfl
  · rw [buildConfig_eq]
    rfl

end Sentry
